import Mathlib

/-!
Shallow embedding of the wxSDK repository (src/index.js): a browser-side
helper that loads the WeChat JSSDK script, fetches a signature from a
caller-supplied endpoint, configures the SDK and registers share metadata
for the timeline and message surfaces.

Pure fragments of the source (config merging, share-descriptor
construction, capability-list union, signature-response validation) are
translated into executable Lean functions.  The effectful orchestration
(`initialize`, `loadSDK`, `configureWeChat`) is embedded as deterministic
trace-producing functions over an environment record that supplies the
outcomes of the external world (DOM, network, the third-party `wx`
object), so that ordering of effects and promise settlement can be
reasoned about.  Callback invocations (`callback.ready?.()` and friends)
are modelled as emitted trace events: the optional-chaining call changes
no control flow in the source, so presence of the user function is not
tracked.
-/

/-- A JavaScript value that is either a scalar string or a two-element
array, as distinguished in the source by `Array.isArray`. -/
inductive JStr where
  | scalar (s : String)
  | pair (a b : String)
deriving DecidableEq, Repr

/-- JS `Array.isArray(x) ? x[0] : x` — element 0 of a pair, or the scalar. -/
def JStr.sel0 : JStr → String
  | .scalar s => s
  | .pair a _ => a

/-- JS `Array.isArray(x) ? x[1] : x` — element 1 of a pair, or the scalar. -/
def JStr.sel1 : JStr → String
  | .scalar s => s
  | .pair _ b => b

/-- The character list before the first `'#'` (the fragment separator). -/
def splitHashHeadList : List Char → List Char
  | [] => []
  | c :: cs => if c = '#' then [] else c :: splitHashHeadList cs

/-- JS `s.split('#')[0]` from the source: the prefix of `s` before the first
`'#'`, or all of `s` when it has no `'#'`. -/
def splitHashHead (s : String) : String :=
  ⟨splitHashHeadList s.data⟩

/-- JavaScript truthiness of a string-or-null value: `null`/`undefined`
and the empty string are falsy. -/
def jsTruthyStr : Option String → Bool
  | none => false
  | some s => s ≠ ""

/-- The caller-supplied options object (lines 6 and 35-42).  A `none`
field is one the caller did not supply, so the default from
`defaultConfig` (lines 16-32) survives the spread merge. -/
structure WxOptions where
  apiUrl : Option String := none
  sdk : Option String := none
  title : Option JStr := none
  desc : Option String := none
  shareIcon : Option JStr := none
  shareLinks : Option JStr := none
  debug : Option Bool := none
  jsApiList : Option (List String) := none
  openTagList : Option (List String) := none
  timeout : Option Nat := none
deriving DecidableEq, Repr

/-- The merged configuration (lines 35-44).  `apiUrl` stays optional
because its default is `null`; every other field has a concrete default.
The nested `callback` group is modelled by trace events instead of data
(see the module comment). -/
structure ResolvedConfig where
  apiUrl : Option String
  sdk : String
  title : JStr
  desc : String
  shareIcon : JStr
  shareLinks : JStr
  debug : Bool
  jsApiList : List String
  openTagList : List String
  timeout : Nat
deriving DecidableEq, Repr

/-- The merge `{...defaultConfig, ...options}` (lines 16-42): caller-supplied
fields win, absent fields fall back to the defaults; the default
`shareLinks` is the current page URL `w.location.href`. -/
def resolveConfig (locationHref : String) (o : WxOptions) : ResolvedConfig :=
  { apiUrl := o.apiUrl
    sdk := o.sdk.getD "https://res.wx.qq.com/open/js/jweixin-1.6.0.js"
    title := o.title.getD (.pair "分享至朋友圈" "分享至好友")
    desc := o.desc.getD "万事皆虚，万物皆允"
    shareIcon := o.shareIcon.getD (.scalar "https://src.pandorastudio.cn/favicon.jpg")
    shareLinks := o.shareLinks.getD (.scalar locationHref)
    debug := o.debug.getD false
    jsApiList := o.jsApiList.getD []
    openTagList := o.openTagList.getD []
    timeout := o.timeout.getD 5000 }

/-- Lines 52-60: `document.querySelector('link[rel*="icon"]')`.  The
argument `favicon` is the queried element's `href` when the query finds
one.  When present and truthy (non-empty) it replaces the configured
share icon with a scalar; otherwise the configured value stands. -/
def resolveShareIcon (configIcon : JStr) (favicon : Option String) : JStr :=
  match favicon with
  | some href => if href ≠ "" then .scalar href else configIcon
  | none => configIcon

/-- The `timelineConfig` object (lines 152-156). -/
structure TimelineDesc where
  title : String
  link : String
  imgUrl : String
deriving DecidableEq, Repr

/-- The `messageConfig` object (lines 158-163). -/
structure MessageDesc where
  title : String
  link : String
  imgUrl : String
  desc : String
deriving DecidableEq, Repr

/-- Lines 152-156: the timeline share descriptor.  Pairs select element
0; a scalar link has its fragment stripped by `split('#')[0]`. -/
def timelineConfig (title shareLinks shareIcon : JStr) : TimelineDesc :=
  { title := title.sel0
    link := match shareLinks with
            | .pair a _ => a
            | .scalar s => splitHashHead s
    imgUrl := shareIcon.sel0 }

/-- Lines 158-163: the message share descriptor.  Pairs select element
1; a scalar link has its fragment stripped; `desc` is carried along. -/
def messageConfig (title shareLinks shareIcon : JStr) (desc : String) : MessageDesc :=
  { title := title.sel1
    link := match shareLinks with
            | .pair _ b => b
            | .scalar s => splitHashHead s
    imgUrl := shareIcon.sel1
    desc := desc }

/-- Line 64. -/
def BASE_API_LIST : List String :=
  ["updateTimelineShareData", "updateAppMessageShareData"]

/-- Line 65. -/
def DEFAULT_OPEN_TAGS : List String :=
  ["wx-open-launch-app"]

/-- JS `[...new Set(l)]` keeps the first occurrence of each element in
insertion order; `seen` is the set of elements already emitted. -/
def jsNewSetDedupAux (seen : List String) : List String → List String
  | [] => []
  | x :: xs =>
      if x ∈ seen then jsNewSetDedupAux seen xs
      else x :: jsNewSetDedupAux (x :: seen) xs

/-- JS `[...new Set(l)]` (lines 166-167): order-stable deduplication. -/
def jsNewSetDedup (l : List String) : List String :=
  jsNewSetDedupAux [] l

/-- Line 166: `[...new Set([...BASE_API_LIST, ...jsApiList])]`. -/
def fullApiList (jsApiList : List String) : List String :=
  jsNewSetDedup (BASE_API_LIST ++ jsApiList)

/-- Line 167: `[...new Set([...DEFAULT_OPEN_TAGS, ...openTagList])]`. -/
def fullOpenTagList (openTagList : List String) : List String :=
  jsNewSetDedup (DEFAULT_OPEN_TAGS ++ openTagList)

/-- The JSON body returned by the signature endpoint, after the
destructuring `const {appId, timestamp, nonceStr, signature} = res || {}`
(line 129).  A `none` field is missing; an empty string is falsy. -/
structure SigBody where
  appId : Option String
  timestamp : Option String
  nonceStr : Option String
  signature : Option String
deriving DecidableEq, Repr

/-- The underlying cause wrapped by the signature error (lines 124-138). -/
inductive SigCause where
  | network (msg : String)
  | httpStatus (status : Nat)
  | jsonParse
  | badFormat
deriving DecidableEq, Repr

/-- What the network returned for the single `fetch` call:
`netFail` is a rejected fetch (network error or timeout abort);
`response` carries `response.ok`, `response.status` and the parsed JSON
body (`none` when `response.json()` fails). -/
inductive FetchOutcome where
  | netFail (msg : String)
  | response (ok : Bool) (status : Nat) (json : Option SigBody)
deriving DecidableEq, Repr

/-- Lines 113-140 (`fetchSignature`), as a function of the network's
response: a rejected fetch, a non-`ok` status, an unparsable body and a
body with a missing or falsy field each produce the corresponding cause;
otherwise the four fields are passed through untouched. -/
def fetchSignature : FetchOutcome → Except SigCause SigBody
  | .netFail msg => .error (.network msg)
  | .response ok status json =>
      if !ok then .error (.httpStatus status)
      else
        match json with
        | none => .error .jsonParse
        | some body =>
            if !(jsTruthyStr body.appId) || !(jsTruthyStr body.timestamp) ||
               !(jsTruthyStr body.nonceStr) || !(jsTruthyStr body.signature) then
              .error .badFormat
            else .ok body

/-- Every error value the promise can reject with, and the values handed
to `callback.error` (lines 12, 48, 94, 105, 145, 138, 179, 195, 214,
246). -/
inductive Err where
  | environment
  | configuration
  | loadTimeout (ms : Nat)
  | loadFailed
  | sdkWaitFailed
  | sdkNotLoaded
  | signature (c : SigCause)
  | sdkConfig (e : String)
  | regFail (e : String)
deriving DecidableEq, Repr

/-- The argument object of `w.wx.config` (lines 170-175). -/
structure WxConfigArgs where
  debug : Bool
  sig : SigBody
  jsApiList : List String
  openTagList : List String
deriving DecidableEq, Repr

/-- Observable events of a run, in temporal order: DOM reads and writes,
the network request, calls into the external `wx` object, caller
callback invocations, and the settlement of the outer promise. -/
inductive Ev where
  | queryFavicon
  | getElementById (id : String)
  | createScript (src : String)
  | appendScript
  | removeScript
  | netFetch (apiUrl : String) (page : String)
  | wxConfig (args : WxConfigArgs)
  | wxRegisterTimeline (d : TimelineDesc)
  | wxRegisterMessage (d : MessageDesc)
  | cbSuccess (kind : String)
  | cbError (e : Err)
  | cbReady
  | resolveP
  | rejectP (e : Err)
deriving DecidableEq, Repr

/-- Settlement of the outer promise: resolved with the `w.wx` handle,
rejected with an error, or never settled. -/
inductive Outcome where
  | resolvedWx
  | rejected (e : Err)
  | pending
deriving DecidableEq, Repr

/-- Result of one phase of `initialize`: proceed, throw into the
`catch`, or suspend forever. -/
inductive PhaseResult where
  | ok
  | err (e : Err)
  | hang
deriving DecidableEq, Repr

/-- How one share registration settles: the external SDK invokes its
`success` callback or its `fail` callback with an error value. -/
inductive RegOutcome where
  | success
  | fail (e : String)
deriving DecidableEq, Repr

/-- What the script element's events do: `load` fires, `error` fires, or
neither ever fires. -/
inductive LoadEvent where
  | success
  | failure
  | neverFires
deriving DecidableEq, Repr

/-- When the external SDK invokes the observer registered by
`w.wx.error(wxReject)` (line 179), relative to the `ready` signal and
the settlement of the two registrations. -/
inductive ErrObsTiming where
  | never
  | beforeReady
  | afterReadyBeforeSettle
  | afterSettle
deriving DecidableEq, Repr

/-- Everything the external world decides during one run: whether a
document exists, the page URL, the favicon query result, whether `wx` is
already loaded, whether a script element with the well-known id is
already in the document, how the script load settles, whether `wx`
is callable after the load, the network response, which registration
entry points exist, whether `ready` fires, when the error observer
fires and with what value, and how each registration settles. -/
structure WxEnv where
  hasDocument : Bool
  locationHref : String
  favicon : Option String
  wxLoadedAtStart : Bool
  scriptInFlight : Bool
  loadEvent : LoadEvent
  wxLoadedAfterScript : Bool
  fetch : FetchOutcome
  hasTimelineApi : Bool
  hasMessageApi : Bool
  readyFires : Bool
  errObs : ErrObsTiming
  errValue : String
  timelineOutcome : RegOutcome
  messageOutcome : RegOutcome
deriving DecidableEq, Repr

/-- The events a settling registration produces (lines 190-197 and
209-216): `success` invokes `callback.success(kind)`, `fail` invokes
`callback.error(err)`; both resolve their promise so the aggregate is
never blocked. -/
def regSettleEvents (kind : String) : RegOutcome → List Ev
  | .success => [.cbSuccess kind]
  | .fail e => [.cbError (.regFail e)]

/-- Lines 185-220: inside the `ready` handler each share registration is
submitted only when its entry point exists on the `wx` object. -/
def readyRegisterEvents (env : WxEnv) (tc : TimelineDesc) (mc : MessageDesc) : List Ev :=
  (if env.hasTimelineApi then [Ev.wxRegisterTimeline tc] else []) ++
  (if env.hasMessageApi then [Ev.wxRegisterMessage mc] else [])

/-- Lines 190-232: the settlement events of the submitted registrations
followed by `callback.ready?.()` when `Promise.all` completes. -/
def readySettleEvents (env : WxEnv) : List Ev :=
  (if env.hasTimelineApi then regSettleEvents "timeline" env.timelineOutcome else []) ++
  (if env.hasMessageApi then regSettleEvents "message" env.messageOutcome else []) ++
  [Ev.cbReady]

/-- Lines 143-235 (`configureWeChat`): guard that `wx.config` is
callable, fetch the signature, build the descriptors, call `wx.config`,
then race `wx.error(wxReject)` against the `ready` handler whose
`Promise.all` continuation calls `wxResolve`.  Returns the events before
the inner promise settles, the settlement, and the events that still
happen afterwards (a promise settles once; later `wxResolve`/`wxReject`
calls are no-ops but the registrations and `callback.ready` still run). -/
def configureWeChatRun (env : WxEnv) (cfg : ResolvedConfig) (shareIcon : JStr)
    (wxAvailable : Bool) : List Ev × PhaseResult × List Ev :=
  if !wxAvailable then ([], .err .sdkNotLoaded, [])
  else
    let fetchEv := [Ev.netFetch (cfg.apiUrl.getD "") (splitHashHead env.locationHref)]
    match fetchSignature env.fetch with
    | .error c => (fetchEv, .err (.signature c), [])
    | .ok body =>
        let tc := timelineConfig cfg.title cfg.shareLinks shareIcon
        let mc := messageConfig cfg.title cfg.shareLinks shareIcon cfg.desc
        let args : WxConfigArgs :=
          { debug := cfg.debug
            sig := body
            jsApiList := fullApiList cfg.jsApiList
            openTagList := fullOpenTagList cfg.openTagList }
        let pre := fetchEv ++ [Ev.wxConfig args]
        if !env.readyFires then
          match env.errObs with
          | .never => (pre, .hang, [])
          | _ => (pre, .err (.sdkConfig env.errValue), [])
        else
          match env.errObs with
          | .beforeReady =>
              (pre, .err (.sdkConfig env.errValue),
               readyRegisterEvents env tc mc ++ readySettleEvents env)
          | .afterReadyBeforeSettle =>
              (pre ++ readyRegisterEvents env tc mc, .err (.sdkConfig env.errValue),
               readySettleEvents env)
          | .never =>
              (pre ++ readyRegisterEvents env tc mc ++ readySettleEvents env, .ok, [])
          | .afterSettle =>
              (pre ++ readyRegisterEvents env tc mc ++ readySettleEvents env, .ok, [])

/-- Lines 240-251 of `initialize`: when `wx.config` is not yet callable,
either await the in-flight script element's events (lines 244-247) or
inject a fresh script via `loadSDK` (lines 80-110), whose timeout and
error paths remove the element from the head before rejecting. -/
def loadPhase (env : WxEnv) (cfg : ResolvedConfig) : List Ev × PhaseResult :=
  if env.wxLoadedAtStart then ([], .ok)
  else if env.scriptInFlight then
    match env.loadEvent with
    | .success => ([], .ok)
    | .failure => ([], .err .sdkWaitFailed)
    | .neverFires => ([], .hang)
  else
    match env.loadEvent with
    | .success => ([Ev.createScript cfg.sdk, Ev.appendScript], .ok)
    | .failure =>
        ([Ev.createScript cfg.sdk, Ev.appendScript, Ev.removeScript], .err .loadFailed)
    | .neverFires =>
        ([Ev.createScript cfg.sdk, Ev.appendScript, Ev.removeScript],
         .err (.loadTimeout cfg.timeout))

/-- Lines 238-260 (`initialize`): run the load phase then
`configureWeChat`; any thrown error reaches the `catch`, which invokes
`callback.error?.(err)` and then `reject(err)`; success resolves the
outer promise with the `wx` handle. -/
def wxAvailAfterLoad (env : WxEnv) : Bool :=
  if env.wxLoadedAtStart then true else env.wxLoadedAfterScript

def initializeRun (env : WxEnv) (cfg : ResolvedConfig) (shareIcon : JStr) :
    List Ev × Outcome :=
  match loadPhase env cfg with
  | (evs, .err e) => (evs ++ [Ev.cbError e, Ev.rejectP e], .rejected e)
  | (evs, .hang) => (evs, .pending)
  | (evs, .ok) =>
      match configureWeChatRun env cfg shareIcon (wxAvailAfterLoad env) with
      | (pre, .err e, post) =>
          (evs ++ pre ++ [Ev.cbError e, Ev.rejectP e] ++ post, .rejected e)
      | (pre, .hang, _) => (evs ++ pre, .pending)
      | (pre, .ok, post) => (evs ++ pre ++ [Ev.resolveP] ++ post, .resolvedWx)

/-- Lines 6-264 (`wxSDK`): reject `EnvironmentError` without a document;
merge the configuration; reject `ConfigurationError` on a falsy
`apiUrl`; only then query the favicon (line 54) and look up the
well-known script id (line 68) and hand over to `initialize`. -/
def wxSDKRun (env : WxEnv) (opts : WxOptions) : List Ev × Outcome :=
  if !env.hasDocument then ([Ev.rejectP .environment], .rejected .environment)
  else
    let cfg := resolveConfig env.locationHref opts
    if !(jsTruthyStr cfg.apiUrl) then
      ([Ev.rejectP .configuration], .rejected .configuration)
    else
      let shareIcon := resolveShareIcon cfg.shareIcon env.favicon
      let (evs, out) := initializeRun env cfg shareIcon
      ([Ev.queryFavicon, Ev.getElementById "wxShareSDK"] ++ evs, out)

/-! ### Timer and handler state of `loadSDK` (lines 67-110)

The resource bookkeeping of one fresh script load: one `setTimeout`
timer, the `onload` and `onerror` handler slots on the element, and
whether the element sits in `document.head`. -/

/-- The mutable resources `loadSDK` manipulates. -/
structure LoadState where
  timerArmed : Bool
  onloadAttached : Bool
  onerrorAttached : Bool
  scriptInHead : Bool
deriving DecidableEq, Repr

/-- Lines 71-77 (`cleanup`): `clearTimeout(timeoutId)` and the
detachment of both handlers; the element itself is not touched. -/
def cleanup (s : LoadState) : LoadState :=
  { s with timerArmed := false, onloadAttached := false, onerrorAttached := false }

/-- Line 93 and 104: `document.head.removeChild(scriptTag)`. -/
def removeScriptTag (s : LoadState) : LoadState :=
  { s with scriptInHead := false }

/-- The state right after `loadSDK` has created the element, armed the
timer, attached both handlers and appended the element (lines 83-108). -/
def loadSDKArmed : LoadState :=
  { timerArmed := true, onloadAttached := true, onerrorAttached := true,
    scriptInHead := true }

/-- Which of the three racing callbacks fires first on a fresh load. -/
inductive LoadFire where
  | timeoutFires
  | loadFires
  | errorFires
deriving DecidableEq, Repr

/-- The three exit paths of `loadSDK` (lines 91-106): the timeout
callback runs `cleanup` then removes the element and rejects with the
timeout error carrying `timeout` ms; `onload` runs `cleanup` and
resolves; `onerror` runs `cleanup`, removes the element and rejects. -/
def loadSDKStep (timeoutMs : Nat) : LoadFire → LoadState → LoadState × Except Err Unit
  | .timeoutFires, s =>
      (removeScriptTag (cleanup s), .error (.loadTimeout timeoutMs))
  | .loadFires, s => (cleanup s, .ok ())
  | .errorFires, s => (removeScriptTag (cleanup s), .error .loadFailed)

/-! ### Two concurrent invocations sharing the script element (lines 238-251)

Caller A has begun a fresh load via `loadSDK`; caller B starts while
that load is in flight.  The element's `onload`/`onerror` slots are
plain properties: assignment replaces the previous handler, so at most
one caller owns each slot at a time. -/

/-- The two concurrent callers. -/
inductive Caller where
  | A
  | B
deriving DecidableEq, Repr

deriving instance DecidableEq for Except

/-- Shared state of the in-flight load: how many script elements with
the well-known id were injected into the document, which caller's
handler currently occupies each slot, whether A's timeout timer is still
armed, and the settlement (first write wins) of each caller's load
promise. -/
structure ConcState where
  scriptCount : Nat
  onloadOwner : Option Caller
  onerrorOwner : Option Caller
  aTimerArmed : Bool
  aLoadResult : Option (Except Err Unit)
  bLoadResult : Option (Except Err Unit)
deriving DecidableEq, Repr

/-- A promise settles only once: a later settlement attempt is a no-op. -/
def settleOnce (r : Option (Except Err Unit)) (v : Except Err Unit) :
    Option (Except Err Unit) :=
  match r with
  | some x => some x
  | none => some v

/-- The state right after caller A's `loadSDK` injected the element,
armed A's timer and installed A's handlers (lines 83-108). -/
def concInit : ConcState :=
  { scriptCount := 1, onloadOwner := some .A, onerrorOwner := some .A,
    aTimerArmed := true, aLoadResult := none, bLoadResult := none }

/-- The events that can hit the shared state while the load is in
flight. -/
inductive ConcEv where
  | bAttaches
  | loadFires
  | errorFires
  | aTimerFires
deriving DecidableEq, Repr

/-- One event on the shared state.
* `bAttaches` (lines 242-247): B finds the element with a parent and
  assigns `scriptTag.onload = resolve; scriptTag.onerror = ...` — plain
  property writes that replace A's handlers; B creates no element.
* `loadFires`/`errorFires`: the script's event dispatches to whichever
  handler currently occupies the slot.  A's handlers (lines 97-106) run
  `cleanup` (disarm A's timer, null both slots) and, on error, remove
  the element; B's handlers (lines 245-246) merely settle B's promise.
* `aTimerFires` (lines 91-95): if A's timer is still armed its callback
  runs `cleanup`, removes the element and rejects A with the timeout
  error. -/
def concStep (timeoutMs : Nat) : ConcEv → ConcState → ConcState
  | .bAttaches, s => { s with onloadOwner := some .B, onerrorOwner := some .B }
  | .loadFires, s =>
      match s.onloadOwner with
      | some .A =>
          { s with aTimerArmed := false, onloadOwner := none, onerrorOwner := none,
                   aLoadResult := settleOnce s.aLoadResult (.ok ()) }
      | some .B => { s with bLoadResult := settleOnce s.bLoadResult (.ok ()) }
      | none => s
  | .errorFires, s =>
      match s.onerrorOwner with
      | some .A =>
          { s with aTimerArmed := false, onloadOwner := none, onerrorOwner := none,
                   scriptCount := s.scriptCount - 1,
                   aLoadResult := settleOnce s.aLoadResult (.error .loadFailed) }
      | some .B => { s with bLoadResult := settleOnce s.bLoadResult (.error .sdkWaitFailed) }
      | none => s
  | .aTimerFires, s =>
      if s.aTimerArmed then
        { s with aTimerArmed := false, onloadOwner := none, onerrorOwner := none,
                 scriptCount := s.scriptCount - 1,
                 aLoadResult := settleOnce s.aLoadResult (.error (.loadTimeout timeoutMs)) }
      else s

/-- A whole interleaving of events on the shared state. -/
def concRun (timeoutMs : Nat) (evs : List ConcEv) (s : ConcState) : ConcState :=
  evs.foldl (fun st e => concStep timeoutMs e st) s

/-! ### Trace predicates -/

/-- Is this event the network request of `fetchSignature`? -/
def isNetFetch : Ev → Bool
  | .netFetch _ _ => true
  | _ => false

/-- Is this event the `w.wx.config` call? -/
def isWxConfig : Ev → Bool
  | .wxConfig _ => true
  | _ => false

/-- Is this event the `callback.ready` invocation? -/
def isCbReady : Ev → Bool
  | .cbReady => true
  | _ => false

/-- Is this event a DOM read or write, or a network request?  Used to
state that validation failures precede any such activity. -/
def isDomOrNet : Ev → Bool
  | .queryFavicon => true
  | .getElementById _ => true
  | .createScript _ => true
  | .appendScript => true
  | .removeScript => true
  | .netFetch _ _ => true
  | _ => false

/-! ### Helper lemmas -/

theorem splitHashHeadList_no_hash (x : List Char) (h : '#' ∉ x) :
    splitHashHeadList x = x := by
  induction x with
  | nil => rfl
  | cons c cs ih =>
      simp only [List.mem_cons, not_or] at h
      have hcne : ¬ c = '#' := fun hc => h.1 hc.symm
      simp only [splitHashHeadList, if_neg hcne]
      exact congrArg (c :: ·) (ih h.2)

theorem splitHashHeadList_append_hash (x y : List Char) (h : '#' ∉ x) :
    splitHashHeadList (x ++ '#' :: y) = x := by
  induction x with
  | nil => simp [splitHashHeadList]
  | cons c cs ih =>
      simp only [List.mem_cons, not_or] at h
      have hcne : ¬ c = '#' := fun hc => h.1 hc.symm
      simp only [List.cons_append, splitHashHeadList, if_neg hcne]
      exact congrArg (c :: ·) (ih h.2)

theorem mem_jsNewSetDedupAux (l : List String) :
    ∀ (seen : List String) (x : String),
      x ∈ jsNewSetDedupAux seen l ↔ (x ∈ l ∧ x ∉ seen) := by
  induction l with
  | nil => intro seen x; simp [jsNewSetDedupAux]
  | cons a as ih =>
      intro seen x
      by_cases ha : a ∈ seen
      · simp only [jsNewSetDedupAux, if_pos ha, ih, List.mem_cons]
        constructor
        · tauto
        · rintro ⟨rfl | hx, hns⟩
          · exact absurd ha hns
          · exact ⟨hx, hns⟩
      · simp only [jsNewSetDedupAux, if_neg ha, List.mem_cons, ih, not_or]
        constructor
        · rintro (rfl | ⟨hx, hne, hns⟩)
          · exact ⟨Or.inl rfl, ha⟩
          · exact ⟨Or.inr hx, hns⟩
        · rintro ⟨rfl | hx, hns⟩
          · exact Or.inl rfl
          · by_cases hxa : x = a
            · exact Or.inl hxa
            · exact Or.inr ⟨hx, hxa, hns⟩

theorem nodup_jsNewSetDedupAux (l : List String) :
    ∀ seen, (jsNewSetDedupAux seen l).Nodup := by
  induction l with
  | nil => intro seen; simp [jsNewSetDedupAux]
  | cons a as ih =>
      intro seen
      by_cases ha : a ∈ seen
      · simpa [jsNewSetDedupAux, ha] using ih seen
      · simp only [jsNewSetDedupAux, if_neg ha, List.nodup_cons]
        refine ⟨fun hmem => ?_, ih _⟩
        exact ((mem_jsNewSetDedupAux as (a :: seen) a).mp hmem).2 (List.mem_cons_self a _)

theorem sublist_jsNewSetDedupAux (l : List String) :
    ∀ seen, List.Sublist (jsNewSetDedupAux seen l) l := by
  induction l with
  | nil => intro _; simp [jsNewSetDedupAux]
  | cons a as ih =>
      intro seen
      by_cases ha : a ∈ seen
      · simp only [jsNewSetDedupAux, if_pos ha]
        exact (ih seen).cons a
      · simp only [jsNewSetDedupAux, if_neg ha]
        exact (ih (a :: seen)).cons₂ a

theorem fullApiList_unfold (l : List String) :
    fullApiList l = "updateTimelineShareData" :: "updateAppMessageShareData" ::
      jsNewSetDedupAux ["updateAppMessageShareData", "updateTimelineShareData"] l := by
  simp [fullApiList, jsNewSetDedup, BASE_API_LIST, jsNewSetDedupAux]

theorem fullOpenTagList_unfold (l : List String) :
    fullOpenTagList l = "wx-open-launch-app" ::
      jsNewSetDedupAux ["wx-open-launch-app"] l := by
  simp [fullOpenTagList, jsNewSetDedup, DEFAULT_OPEN_TAGS, jsNewSetDedupAux]

/-! ### Claim theorems -/

/-- C2: for every configuration, the two share descriptors built at
registration time satisfy: a scalar `title`/`shareLinks`/`shareIcon` is
used identically by the timeline and the message descriptor (a scalar
link with its `'#'`-fragment stripped), a 2-tuple contributes element 0
to the timeline descriptor and element 1 to the message descriptor, and
the message descriptor additionally carries the description.  The two
leading conjuncts pin down fragment stripping: `splitHashHeadList`
returns exactly the characters before the first `'#'` and leaves a
fragment-free value unchanged. -/
theorem share_descriptors_scalar_and_pair_selection
    (t ta tb l la lb i ia ib d : String) :
    (∀ x y : List Char, '#' ∉ x → splitHashHeadList (x ++ '#' :: y) = x) ∧
    (∀ x : List Char, '#' ∉ x → splitHashHeadList x = x) ∧
    (timelineConfig (.scalar t) (.scalar l) (.scalar i)).title = t ∧
    (messageConfig (.scalar t) (.scalar l) (.scalar i) d).title = t ∧
    (timelineConfig (.scalar t) (.scalar l) (.scalar i)).link = splitHashHead l ∧
    (messageConfig (.scalar t) (.scalar l) (.scalar i) d).link = splitHashHead l ∧
    (timelineConfig (.scalar t) (.scalar l) (.scalar i)).imgUrl = i ∧
    (messageConfig (.scalar t) (.scalar l) (.scalar i) d).imgUrl = i ∧
    (timelineConfig (.pair ta tb) (.pair la lb) (.pair ia ib)).title = ta ∧
    (timelineConfig (.pair ta tb) (.pair la lb) (.pair ia ib)).link = la ∧
    (timelineConfig (.pair ta tb) (.pair la lb) (.pair ia ib)).imgUrl = ia ∧
    (messageConfig (.pair ta tb) (.pair la lb) (.pair ia ib) d).title = tb ∧
    (messageConfig (.pair ta tb) (.pair la lb) (.pair ia ib) d).link = lb ∧
    (messageConfig (.pair ta tb) (.pair la lb) (.pair ia ib) d).imgUrl = ib ∧
    (messageConfig (.scalar t) (.scalar l) (.scalar i) d).desc = d ∧
    (messageConfig (.pair ta tb) (.pair la lb) (.pair ia ib) d).desc = d :=
  ⟨splitHashHeadList_append_hash, splitHashHeadList_no_hash,
   rfl, rfl, rfl, rfl, rfl, rfl, rfl, rfl, rfl, rfl, rfl, rfl, rfl, rfl⟩

/-- Witness for C2 at concrete inputs. -/
theorem share_descriptors_scalar_and_pair_selection_witness :
    splitHashHeadList (['a', 'b'] ++ '#' :: ['c']) = ['a', 'b'] :=
  (share_descriptors_scalar_and_pair_selection
      "t" "t0" "t1" "l" "l0" "l1" "i" "i0" "i1" "d").1
    ['a', 'b'] ['c'] (by decide)

/-- C3: for every caller-supplied `jsApiList`, the capability list
passed to `wx.config` is duplicate-free, contains exactly the baseline
capabilities and the caller's entries, starts with the baseline, and is
an order-stable selection from baseline-then-caller; for
`["chooseImage"]` it is exactly the three-element list.  The same holds
for `openTagList` over the open-tag baseline. -/
theorem capability_list_union_baseline_first (l : List String) :
    (fullApiList l).Nodup ∧
    (∀ x, x ∈ fullApiList l ↔ x ∈ BASE_API_LIST ∨ x ∈ l) ∧
    (∃ rest, fullApiList l = BASE_API_LIST ++ rest) ∧
    List.Sublist (fullApiList l) (BASE_API_LIST ++ l) ∧
    fullApiList ["chooseImage"] =
      ["updateTimelineShareData", "updateAppMessageShareData", "chooseImage"] ∧
    (fullOpenTagList l).Nodup ∧
    (∀ x, x ∈ fullOpenTagList l ↔ x ∈ DEFAULT_OPEN_TAGS ∨ x ∈ l) ∧
    (∃ rest, fullOpenTagList l = DEFAULT_OPEN_TAGS ++ rest) ∧
    List.Sublist (fullOpenTagList l) (DEFAULT_OPEN_TAGS ++ l) := by
  refine ⟨nodup_jsNewSetDedupAux _ _, fun x => ?_,
    ⟨jsNewSetDedupAux ["updateAppMessageShareData", "updateTimelineShareData"] l,
     by simpa [BASE_API_LIST] using fullApiList_unfold l⟩,
    sublist_jsNewSetDedupAux _ _, by decide,
    nodup_jsNewSetDedupAux _ _, fun x => ?_,
    ⟨jsNewSetDedupAux ["wx-open-launch-app"] l,
     by simpa [DEFAULT_OPEN_TAGS] using fullOpenTagList_unfold l⟩,
    sublist_jsNewSetDedupAux _ _⟩
  · simp [fullApiList, jsNewSetDedup, mem_jsNewSetDedupAux]
  · simp [fullOpenTagList, jsNewSetDedup, mem_jsNewSetDedupAux]

/-- C5: on a fresh script load, the timeout expiring clears the timer,
detaches both handlers, removes the injected element from the document
and rejects with the timeout error carrying `timeoutMs`; the `load` exit
clears the timer and detaches both handlers (the element stays) and
resolves; the native `error` exit clears the timer, detaches both
handlers, removes the element and rejects with the load error. -/
theorem loadSDK_timeout_cleanup_and_reject (timeoutMs : Nat) :
    loadSDKStep timeoutMs .timeoutFires loadSDKArmed =
      ({ timerArmed := false, onloadAttached := false, onerrorAttached := false,
         scriptInHead := false }, .error (.loadTimeout timeoutMs)) ∧
    loadSDKStep timeoutMs .loadFires loadSDKArmed =
      ({ timerArmed := false, onloadAttached := false, onerrorAttached := false,
         scriptInHead := true }, .ok ()) ∧
    loadSDKStep timeoutMs .errorFires loadSDKArmed =
      ({ timerArmed := false, onloadAttached := false, onerrorAttached := false,
         scriptInHead := false }, .error .loadFailed) :=
  ⟨rfl, rfl, rfl⟩

/-- C9: whenever the favicon query finds a link element with a non-empty
`href`, that href replaces the share icon — caller-supplied scalar or
pair alike — so both descriptors' image URL equals the favicon href. -/
theorem favicon_overrides_share_icon (icon title links : JStr) (d href : String)
    (h : href ≠ "") :
    resolveShareIcon icon (some href) = .scalar href ∧
    (timelineConfig title links (resolveShareIcon icon (some href))).imgUrl = href ∧
    (messageConfig title links (resolveShareIcon icon (some href)) d).imgUrl = href := by
  simp [resolveShareIcon, h, timelineConfig, messageConfig, JStr.sel0, JStr.sel1]

/-- Witness for C9: a caller-supplied icon pair is overridden by the
favicon href. -/
theorem favicon_overrides_share_icon_witness :
    resolveShareIcon (.pair "https://a/i0.png" "https://a/i1.png")
      (some "https://a/favicon.ico") = .scalar "https://a/favicon.ico" :=
  (favicon_overrides_share_icon (.pair "https://a/i0.png" "https://a/i1.png")
    (.scalar "t") (.scalar "l") "d" "https://a/favicon.ico" (by decide)).1

theorem concStep_scriptCount_le (t : Nat) (e : ConcEv) (s : ConcState) :
    (concStep t e s).scriptCount ≤ s.scriptCount := by
  cases e
  · exact le_refl _
  · simp only [concStep]
    rcases s.onloadOwner with _ | c
    · exact le_refl _
    · cases c <;> exact le_refl _
  · simp only [concStep]
    rcases s.onerrorOwner with _ | c
    · exact le_refl _
    · cases c
      · exact Nat.sub_le _ _
      · exact le_refl _
  · simp only [concStep]
    by_cases hT : s.aTimerArmed
    · simp only [if_pos hT]
      exact Nat.sub_le _ _
    · simp only [if_neg hT]
      exact le_refl _

theorem concRun_scriptCount_le (t : Nat) (evs : List ConcEv) :
    ∀ s, (concRun t evs s).scriptCount ≤ s.scriptCount := by
  induction evs with
  | nil => intro s; exact le_refl _
  | cons e es ih =>
      intro s
      exact (ih (concStep t e s)).trans (concStep_scriptCount_le t e s)

/-- Counterexample to C6: with caller A's fresh load in flight, caller B
attaches (lines 242-247), the script's `load` event then fires, and A's
timeout later expires.  B's load promise resolves, but A's was never
settled by the load event and is finally rejected with the timeout
error: the two concurrent callers do not converge on the same outcome
even though the load succeeded. -/
theorem concurrent_attach_divergence_counterexample :
    (concRun 5000 [.bAttaches, .loadFires] concInit).bLoadResult = some (.ok ()) ∧
    (concRun 5000 [.bAttaches, .loadFires] concInit).aLoadResult = none ∧
    (concRun 5000 [.bAttaches, .loadFires, .aTimerFires] concInit).aLoadResult =
      some (.error (.loadTimeout 5000)) ∧
    (concRun 5000 [.bAttaches, .loadFires, .aTimerFires] concInit).bLoadResult =
      some (.ok ()) ∧
    (concRun 5000 [.bAttaches, .loadFires, .aTimerFires] concInit).aLoadResult ≠
      (concRun 5000 [.bAttaches, .loadFires, .aTimerFires] concInit).bLoadResult := by
  decide

/-- C6 amended: the second invocation never injects a second script
element bearing the well-known id (every interleaving keeps the injected
count at most one, and the attach step leaves it unchanged); it attaches
to the in-flight load by assigning the element's `onload`/`onerror`
properties, which makes caller B the owner of both handler slots and
thereby replaces caller A's handlers; consequently a subsequent `load`
event settles only B's promise and leaves A's untouched. -/
theorem concurrent_attach_no_second_injection (timeoutMs : Nat)
    (evs : List ConcEv) (s : ConcState) :
    (concRun timeoutMs evs concInit).scriptCount ≤ 1 ∧
    (concStep timeoutMs .bAttaches s).onloadOwner = some .B ∧
    (concStep timeoutMs .bAttaches s).onerrorOwner = some .B ∧
    (concStep timeoutMs .bAttaches s).scriptCount = s.scriptCount ∧
    (∀ s' : ConcState, s'.onloadOwner = some Caller.B →
      (concStep timeoutMs .loadFires s').aLoadResult = s'.aLoadResult ∧
      (concStep timeoutMs .loadFires s').bLoadResult =
        settleOnce s'.bLoadResult (.ok ())) := by
  refine ⟨concRun_scriptCount_le timeoutMs evs concInit, rfl, rfl, rfl, ?_⟩
  intro s' h
  simp [concStep, h]

/-- Witness for the amended C6 at a concrete state with B owning the
handler slots. -/
theorem concurrent_attach_no_second_injection_witness :
    (concStep 100 .loadFires (concStep 100 .bAttaches concInit)).aLoadResult =
      (concStep 100 .bAttaches concInit).aLoadResult :=
  ((concurrent_attach_no_second_injection 100 [] concInit).2.2.2.2
    (concStep 100 .bAttaches concInit) rfl).1

/-! ### Shared concrete runs -/

/-- A signature body with all four fields present and non-empty. -/
def goodBody : SigBody :=
  { appId := some "wx-app-id", timestamp := some "1700000000",
    nonceStr := some "nonce", signature := some "sig-value" }

/-- A fully successful environment: browser document, `wx` already
loaded, a good signature response, both registration entry points
present, readiness firing and both registrations succeeding. -/
def envBase : WxEnv :=
  { hasDocument := true
    locationHref := "https://example.com/page#frag"
    favicon := none
    wxLoadedAtStart := true
    scriptInFlight := false
    loadEvent := .success
    wxLoadedAfterScript := true
    fetch := .response true 200 (some goodBody)
    hasTimelineApi := true
    hasMessageApi := true
    readyFires := true
    errObs := .never
    errValue := "boom"
    timelineOutcome := .success
    messageOutcome := .success }

/-- A caller configuration supplying only the mandatory endpoint. -/
def opts1 : WxOptions :=
  { apiUrl := some "https://api.example.com/sign?url=" }

/-- C1: when a document exists but the merged configuration's `apiUrl`
is absent or falsy, the run rejects with the configuration error and its
whole trace is that single rejection — in particular no network request
and no DOM activity (no favicon query, no element lookup, creation or
injection) precedes it. -/
theorem missing_apiUrl_rejects_before_any_effect (env : WxEnv) (opts : WxOptions)
    (hdoc : env.hasDocument = true)
    (hapi : jsTruthyStr (resolveConfig env.locationHref opts).apiUrl = false) :
    wxSDKRun env opts = ([Ev.rejectP .configuration], .rejected .configuration) ∧
    ∀ e ∈ (wxSDKRun env opts).1, isDomOrNet e = false := by
  have h1 : wxSDKRun env opts = ([Ev.rejectP .configuration], .rejected .configuration) := by
    simp [wxSDKRun, hdoc, hapi]
  refine ⟨h1, ?_⟩
  rw [h1]
  intro e he
  simp only [List.mem_singleton] at he
  subst he
  rfl

/-- Witness for C1: the empty options object has no `apiUrl`. -/
theorem missing_apiUrl_rejects_before_any_effect_witness :
    wxSDKRun envBase {} = ([Ev.rejectP .configuration], .rejected .configuration) :=
  (missing_apiUrl_rejects_before_any_effect envBase {} rfl rfl).1

theorem loadPhase_result_ne (env : WxEnv) (cfg : ResolvedConfig) (e : Err)
    (h : (loadPhase env cfg).2 = .err e) :
    e ≠ .environment ∧ e ≠ .configuration := by
  unfold loadPhase at h
  by_cases hw : env.wxLoadedAtStart
  · simp [hw] at h
  · by_cases hs : env.scriptInFlight <;>
      cases hl : env.loadEvent <;>
        simp [hw, hs, hl] at h <;>
          (subst h; exact ⟨by simp, by simp⟩)

theorem configureWeChatRun_result_ne (env : WxEnv) (cfg : ResolvedConfig)
    (icon : JStr) (avail : Bool) (e : Err)
    (h : (configureWeChatRun env cfg icon avail).2.1 = .err e) :
    e ≠ .environment ∧ e ≠ .configuration := by
  unfold configureWeChatRun at h
  by_cases hv : avail
  · rcases hf : fetchSignature env.fetch with c | body <;>
      by_cases hr : env.readyFires <;>
        cases ho : env.errObs <;>
          simp [hv, hf, hr, ho] at h <;>
            (subst h; exact ⟨by simp, by simp⟩)
  · simp [hv] at h
    subst h
    exact ⟨by simp, by simp⟩

theorem initializeRun_rejected_shape (env : WxEnv) (cfg : ResolvedConfig)
    (icon : JStr) (e : Err)
    (h : (initializeRun env cfg icon).2 = .rejected e) :
    e ≠ .environment ∧ e ≠ .configuration ∧
    ∃ pre post, (initializeRun env cfg icon).1 =
      pre ++ [Ev.cbError e, Ev.rejectP e] ++ post := by
  unfold initializeRun at h ⊢
  rcases hlp : loadPhase env cfg with ⟨evs, r⟩
  rw [hlp] at h
  cases r with
  | err e' =>
      simp at h
      subst h
      have hne := loadPhase_result_ne env cfg e' (by rw [hlp])
      exact ⟨hne.1, hne.2, evs, [], by simp⟩
  | hang => simp at h
  | ok =>
      rcases hcw : configureWeChatRun env cfg icon (wxAvailAfterLoad env)
        with ⟨pre, r2, post⟩
      rw [hcw] at h
      cases r2 with
      | ok => simp at h
      | hang => simp at h
      | err e' =>
          simp at h
          subst h
          have hne := configureWeChatRun_result_ne env cfg icon _ e' (by rw [hcw])
          exact ⟨hne.1, hne.2, evs ++ pre, post, by simp⟩

/-- C10: every rejection that arises after configuration resolution
(script-load failure or timeout, the in-flight wait failing, the SDK
missing after load, signature failure, SDK configuration error) invokes
`callback.error` with the same error value immediately before the outer
promise rejects with it; the two pre-resolution rejections (no document,
missing `apiUrl`) reject without invoking any callback — their whole
trace is the bare rejection. -/
theorem post_config_rejections_invoke_onError_first (env : WxEnv)
    (opts : WxOptions) (e : Err)
    (h : (wxSDKRun env opts).2 = .rejected e) :
    ((e = .environment ∨ e = .configuration) →
      (wxSDKRun env opts).1 = [Ev.rejectP e]) ∧
    ((e ≠ .environment ∧ e ≠ .configuration) →
      ∃ pre post, (wxSDKRun env opts).1 =
        pre ++ [Ev.cbError e, Ev.rejectP e] ++ post) := by
  by_cases hd : env.hasDocument
  · by_cases ha : jsTruthyStr (resolveConfig env.locationHref opts).apiUrl
    · rcases hin : initializeRun env (resolveConfig env.locationHref opts)
          (resolveShareIcon (resolveConfig env.locationHref opts).shareIcon env.favicon)
        with ⟨evs, out⟩
      have hrun : wxSDKRun env opts =
          ([Ev.queryFavicon, Ev.getElementById "wxShareSDK"] ++ evs, out) := by
        unfold wxSDKRun
        simp [hd, ha, hin]
      rw [hrun] at h
      have hout : out = .rejected e := h
      subst hout
      obtain ⟨hne1, hne2, pre, post, htr⟩ :=
        initializeRun_rejected_shape env (resolveConfig env.locationHref opts)
          (resolveShareIcon (resolveConfig env.locationHref opts).shareIcon env.favicon)
          e (by rw [hin])
      rw [hin] at htr
      have htr' : evs = pre ++ [Ev.cbError e, Ev.rejectP e] ++ post := htr
      constructor
      · rintro (rfl | rfl)
        · exact absurd rfl hne1
        · exact absurd rfl hne2
      · intro _
        refine ⟨Ev.queryFavicon :: Ev.getElementById "wxShareSDK" :: pre, post, ?_⟩
        rw [hrun]
        simp [htr']
    · have hrun : wxSDKRun env opts =
          ([Ev.rejectP .configuration], .rejected .configuration) := by
        unfold wxSDKRun
        simp [hd, ha]
      rw [hrun] at h
      have hout : Outcome.rejected .configuration = .rejected e := h
      have he : e = .configuration := by
        cases hout
        rfl
      subst he
      constructor
      · intro _
        rw [hrun]
      · rintro ⟨_, h2⟩
        exact absurd rfl h2
  · have hrun : wxSDKRun env opts =
        ([Ev.rejectP .environment], .rejected .environment) := by
      unfold wxSDKRun
      simp [hd]
    rw [hrun] at h
    have hout : Outcome.rejected .environment = .rejected e := h
    have he : e = .environment := by
      cases hout
      rfl
    subst he
    constructor
    · intro _
      rw [hrun]
    · rintro ⟨h1, _⟩
      exact absurd rfl h1

/-- Witness for C10: an HTTP 500 from the signature endpoint makes the
trace carry `callback.error` immediately before the rejection. -/
theorem post_config_rejections_invoke_onError_first_witness :
    ∃ pre post,
      (wxSDKRun { envBase with fetch := .response false 500 none } opts1).1 =
        pre ++ [Ev.cbError (.signature (.httpStatus 500)),
                Ev.rejectP (.signature (.httpStatus 500))] ++ post :=
  (post_config_rejections_invoke_onError_first
      { envBase with fetch := .response false 500 none } opts1
      (.signature (.httpStatus 500)) (by decide)).2 ⟨by simp, by simp⟩

/-- C7: whenever the signature endpoint's response makes `fetchSignature`
fail — and it fails exactly on a rejected fetch, a non-success HTTP
status (e.g. 500), an unparsable JSON body, or a body with a missing or
falsy required field — the run rejects with the signature error wrapping
that underlying cause, exactly one network request was issued (no
retry), and `wx.config` is never called in that run. -/
theorem signature_failure_rejects_without_config (env : WxEnv)
    (opts : WxOptions) (c : SigCause)
    (hdoc : env.hasDocument = true)
    (hapi : jsTruthyStr (resolveConfig env.locationHref opts).apiUrl = true)
    (hpath : env.wxLoadedAtStart = true ∨
      (env.loadEvent = .success ∧ env.wxLoadedAfterScript = true))
    (hfetch : fetchSignature env.fetch = .error c) :
    (wxSDKRun env opts).2 = .rejected (.signature c) ∧
    (wxSDKRun env opts).1.countP isNetFetch = 1 ∧
    (wxSDKRun env opts).1.countP isWxConfig = 0 ∧
    (∀ st j, fetchSignature (.response false st j) = .error (.httpStatus st)) ∧
    (∀ st, fetchSignature (.response true st none) = .error .jsonParse) ∧
    (∀ st b, (jsTruthyStr b.appId = false ∨ jsTruthyStr b.timestamp = false ∨
        jsTruthyStr b.nonceStr = false ∨ jsTruthyStr b.signature = false) →
      fetchSignature (.response true st (some b)) = .error .badFormat) ∧
    (∀ msg, fetchSignature (.netFail msg) = .error (.network msg)) := by
  have hside3 : ∀ st b, (jsTruthyStr b.appId = false ∨ jsTruthyStr b.timestamp = false ∨
      jsTruthyStr b.nonceStr = false ∨ jsTruthyStr b.signature = false) →
      fetchSignature (.response true st (some b)) = .error .badFormat := by
    intro st b hb
    rcases hb with hb | hb | hb | hb <;> simp [fetchSignature, hb]
  rcases hpath with hw | ⟨hl, hws⟩
  · refine ⟨?_, ?_, ?_, by intro st j; simp [fetchSignature],
      by intro st; simp [fetchSignature], hside3, by intro msg; simp [fetchSignature]⟩ <;>
      simp [wxSDKRun, initializeRun, loadPhase, configureWeChatRun, wxAvailAfterLoad,
        hdoc, hapi, hw, hfetch, isNetFetch, isWxConfig]
  · by_cases hw : env.wxLoadedAtStart
    · refine ⟨?_, ?_, ?_, by intro st j; simp [fetchSignature],
        by intro st; simp [fetchSignature], hside3, by intro msg; simp [fetchSignature]⟩ <;>
        simp [wxSDKRun, initializeRun, loadPhase, configureWeChatRun, wxAvailAfterLoad,
          hdoc, hapi, hw, hfetch, isNetFetch, isWxConfig]
    · by_cases hs : env.scriptInFlight <;>
        refine ⟨?_, ?_, ?_, by intro st j; simp [fetchSignature],
          by intro st; simp [fetchSignature], hside3, by intro msg; simp [fetchSignature]⟩ <;>
        simp [wxSDKRun, initializeRun, loadPhase, configureWeChatRun, wxAvailAfterLoad,
          hdoc, hapi, hw, hs, hl, hws, hfetch, isNetFetch, isWxConfig]

/-- Witness for C7: HTTP 500 from the endpoint. -/
theorem signature_failure_rejects_without_config_witness :
    (wxSDKRun { envBase with fetch := .response false 500 none } opts1).2 =
      .rejected (.signature (.httpStatus 500)) :=
  (signature_failure_rejects_without_config
      { envBase with fetch := .response false 500 none } opts1
      (.httpStatus 500) rfl (by decide) (Or.inl rfl) rfl).1

/-- C4: in a run where the readiness signal fires, both registration
entry points exist, the SDK error observer stays silent and exactly one
of the two share registrations fails while the other succeeds, the
operation still resolves with the `wx` handle, `callback.ready` is
invoked exactly once, `callback.error` receives the failing
registration's error, and `callback.success` receives the succeeding
registration's kind. -/
theorem single_registration_failure_still_resolves (env : WxEnv)
    (opts : WxOptions) (e : String) (body : SigBody)
    (hdoc : env.hasDocument = true)
    (hapi : jsTruthyStr (resolveConfig env.locationHref opts).apiUrl = true)
    (hpath : env.wxLoadedAtStart = true ∨
      (env.loadEvent = .success ∧ env.wxLoadedAfterScript = true))
    (hfetch : fetchSignature env.fetch = .ok body)
    (hready : env.readyFires = true)
    (herr : env.errObs = .never)
    (hT : env.hasTimelineApi = true) (hM : env.hasMessageApi = true)
    (hone : (env.timelineOutcome = .fail e ∧ env.messageOutcome = .success) ∨
            (env.timelineOutcome = .success ∧ env.messageOutcome = .fail e)) :
    (wxSDKRun env opts).2 = .resolvedWx ∧
    (wxSDKRun env opts).1.countP isCbReady = 1 ∧
    Ev.cbError (.regFail e) ∈ (wxSDKRun env opts).1 ∧
    (env.timelineOutcome = .fail e → Ev.cbSuccess "message" ∈ (wxSDKRun env opts).1) ∧
    (env.messageOutcome = .fail e → Ev.cbSuccess "timeline" ∈ (wxSDKRun env opts).1) := by
  rcases hone with ⟨h1, h2⟩ | ⟨h1, h2⟩ <;> rcases hpath with hw | ⟨hl, hws⟩
  · refine ⟨?_, ?_, ?_, ?_, ?_⟩ <;>
      simp [wxSDKRun, initializeRun, loadPhase, configureWeChatRun, wxAvailAfterLoad,
        readyRegisterEvents, readySettleEvents, regSettleEvents,
        hdoc, hapi, hw, hfetch, hready, herr, hT, hM, h1, h2, isCbReady]
  · by_cases hw : env.wxLoadedAtStart
    · refine ⟨?_, ?_, ?_, ?_, ?_⟩ <;>
        simp [wxSDKRun, initializeRun, loadPhase, configureWeChatRun, wxAvailAfterLoad,
          readyRegisterEvents, readySettleEvents, regSettleEvents,
          hdoc, hapi, hw, hfetch, hready, herr, hT, hM, h1, h2, isCbReady]
    · by_cases hs : env.scriptInFlight <;>
        refine ⟨?_, ?_, ?_, ?_, ?_⟩ <;>
        simp [wxSDKRun, initializeRun, loadPhase, configureWeChatRun, wxAvailAfterLoad,
          readyRegisterEvents, readySettleEvents, regSettleEvents,
          hdoc, hapi, hw, hs, hl, hws, hfetch, hready, herr, hT, hM, h1, h2, isCbReady]
  · refine ⟨?_, ?_, ?_, ?_, ?_⟩ <;>
      simp [wxSDKRun, initializeRun, loadPhase, configureWeChatRun, wxAvailAfterLoad,
        readyRegisterEvents, readySettleEvents, regSettleEvents,
        hdoc, hapi, hw, hfetch, hready, herr, hT, hM, h1, h2, isCbReady]
  · by_cases hw : env.wxLoadedAtStart
    · refine ⟨?_, ?_, ?_, ?_, ?_⟩ <;>
        simp [wxSDKRun, initializeRun, loadPhase, configureWeChatRun, wxAvailAfterLoad,
          readyRegisterEvents, readySettleEvents, regSettleEvents,
          hdoc, hapi, hw, hfetch, hready, herr, hT, hM, h1, h2, isCbReady]
    · by_cases hs : env.scriptInFlight <;>
        refine ⟨?_, ?_, ?_, ?_, ?_⟩ <;>
        simp [wxSDKRun, initializeRun, loadPhase, configureWeChatRun, wxAvailAfterLoad,
          readyRegisterEvents, readySettleEvents, regSettleEvents,
          hdoc, hapi, hw, hs, hl, hws, hfetch, hready, herr, hT, hM, h1, h2, isCbReady]

/-- Witness for C4: the timeline registration fails, the message one
succeeds; the run still resolves. -/
theorem single_registration_failure_still_resolves_witness :
    (wxSDKRun { envBase with timelineOutcome := .fail "denied" } opts1).2 =
      .resolvedWx :=
  (single_registration_failure_still_resolves
      { envBase with timelineOutcome := .fail "denied" } opts1 "denied" goodBody
      rfl (by decide) (Or.inl rfl) rfl rfl rfl rfl rfl (Or.inl ⟨rfl, rfl⟩)).1

/-- An environment identical to the fully successful one except that the
SDK error observer fires after readiness but before the two
registrations have settled. -/
def envObsBetween : WxEnv :=
  { envBase with errObs := .afterReadyBeforeSettle }

/-- Counterexample to C8: the readiness signal fires, yet the operation
rejects — `w.wx.error(wxReject)` is still armed after `ready`, and if
the external SDK invokes it before the two registrations settle,
`wxReject` wins the settlement race and the whole operation rejects with
the SDK configuration error instead of resolving. -/
theorem ready_fires_but_error_observer_rejects_counterexample :
    envObsBetween.readyFires = true ∧
    (wxSDKRun envObsBetween opts1).2 = .rejected (.sdkConfig "boom") ∧
    (wxSDKRun envObsBetween opts1).2 ≠ .resolvedWx := by
  refine ⟨rfl, by decide, by decide⟩

/-- C8 amended: once the readiness signal fires, the operation resolves
with the `wx` handle regardless of whether zero, one or both share
registrations fail — provided the SDK error observer is not invoked
before the two registrations settle; an observer invocation that
precedes their settlement (before or after readiness) instead rejects
the operation with the SDK configuration error. -/
theorem resolution_after_ready_vs_error_observer (env : WxEnv)
    (opts : WxOptions) (body : SigBody)
    (hdoc : env.hasDocument = true)
    (hapi : jsTruthyStr (resolveConfig env.locationHref opts).apiUrl = true)
    (hpath : env.wxLoadedAtStart = true ∨
      (env.loadEvent = .success ∧ env.wxLoadedAfterScript = true))
    (hfetch : fetchSignature env.fetch = .ok body)
    (hready : env.readyFires = true) :
    ((env.errObs = .never ∨ env.errObs = .afterSettle) →
      (wxSDKRun env opts).2 = .resolvedWx) ∧
    ((env.errObs = .beforeReady ∨ env.errObs = .afterReadyBeforeSettle) →
      (wxSDKRun env opts).2 = .rejected (.sdkConfig env.errValue)) := by
  rcases hpath with hw | ⟨hl, hws⟩
  · constructor <;> rintro (ho | ho) <;>
      simp [wxSDKRun, initializeRun, loadPhase, configureWeChatRun, wxAvailAfterLoad,
        readyRegisterEvents, readySettleEvents, regSettleEvents,
        hdoc, hapi, hw, hfetch, hready, ho]
  · by_cases hw : env.wxLoadedAtStart
    · constructor <;> rintro (ho | ho) <;>
        simp [wxSDKRun, initializeRun, loadPhase, configureWeChatRun, wxAvailAfterLoad,
          readyRegisterEvents, readySettleEvents, regSettleEvents,
          hdoc, hapi, hw, hfetch, hready, ho]
    · by_cases hs : env.scriptInFlight <;>
        constructor <;> rintro (ho | ho) <;>
        simp [wxSDKRun, initializeRun, loadPhase, configureWeChatRun, wxAvailAfterLoad,
          readyRegisterEvents, readySettleEvents, regSettleEvents,
          hdoc, hapi, hw, hs, hl, hws, hfetch, hready, ho]

/-- Witness for the amended C8: with the observer silent the successful
run resolves. -/
theorem resolution_after_ready_vs_error_observer_witness :
    (wxSDKRun envBase opts1).2 = .resolvedWx :=
  (resolution_after_ready_vs_error_observer envBase opts1 goodBody
      rfl (by decide) (Or.inl rfl) rfl rfl).1 (Or.inl rfl)
